import Mathlib

/-!
# Verification of the module-definition emitter (`r3_module_compiler.ts`)

Shallow embedding of `packages/compiler/src/render3/r3_module_compiler.ts`.
The output AST (`o.Expression`, `o.Statement`, `o.Type`), the
`DefinitionMap` builder, `refsToArray` and `jitOnlyGuardedExpression` live
in collaborator files that are not part of the excerpt; those are modelled
from the specification (sections 4.1, 4.2, 4.4 and the output contract in
section 6).  Everything else is translated directly from the source.
-/

/-!
Output AST: a faithful skeleton of the `o.*` expression builders the
source uses.  `Ty` mirrors `o.Type` (`NONE_TYPE` and expression types),
and `Stmt` mirrors `o.Statement` (expression and return statements).
-/
mutual

/-- `o.Expression`: literal maps/arrays, function expressions,
invocations (with the purity flag of `callFn`), imported runtime symbols
(with type parameters), wrapped external nodes, `typeof` expressions,
the boolean short-circuit guard and variable reads used by the jit-mode
guard, and leaf expressions (`atom`) standing for arbitrary
caller-supplied expressions. -/
inductive Expr where
  | atom (n : Nat)
  | importExpr (sym : String) (typeParams : List Ty)
  | literalArr (elems : List Expr)
  | literalMap (entries : List (String × Expr))
  | invokeFn (fn : Expr) (args : List Expr) (pureCall : Bool)
  | fn (params : List String) (body : List Stmt)
  | wrappedNode (n : Nat)
  | typeofExpr (e : Expr)
  | andExpr (lhs rhs : Expr)
  | readVar (name : String)

/-- `o.Statement`: expression statements and return statements. -/
inductive Stmt where
  | exprStmt (e : Expr)
  | ret (e : Expr)

/-- `o.Type`: the `NONE_TYPE` sentinel and expression types. -/
inductive Ty where
  | noneType
  | expressionType (e : Expr)

end

/-- An `R3Reference`: paired runtime-value and compile-time-type
expressions denoting the same entity. -/
structure R3Reference where
  value : Expr
  type : Expr

/-- The `R3SelectorScopeMode` enum. -/
inductive R3SelectorScopeMode where
  | Inline
  | SideEffect
  | Omit
deriving DecidableEq

/-- The `R3NgModuleMetadata` input record.  `schemas : R3Reference[]|null`
and `id : o.Expression|null` become `Option`s. -/
structure R3NgModuleMetadata where
  type : R3Reference
  internalType : Expr
  adjacentType : Expr
  bootstrap : List R3Reference
  declarations : List R3Reference
  imports : List R3Reference
  exports : List R3Reference
  selectorScopeMode : R3SelectorScopeMode
  containsForwardDecls : Bool
  schemas : Option (List R3Reference)
  id : Option Expr

/-- The `R3CompiledExpression` output triple. -/
structure R3CompiledExpression where
  expression : Expr
  type : Ty
  statements : List Stmt

/-- The `R3DeclareNgModuleFacade` input of the declaration path: each
field other than `type` is optional (`undefined` when absent), and every
field is an opaque host-AST node, represented by a `Nat` tag. -/
structure R3DeclareNgModuleFacade where
  type : Nat
  bootstrap : Option Nat
  declarations : Option Nat
  imports : Option Nat
  exports : Option Nat
  schemas : Option Nat
  id : Option Nat

/-- Modelled from the spec (4.1): the `DefinitionMap` builder from
`view/util.ts`, which is not part of the excerpt.  An insertion-order
preserving, sparse key/value accumulator. -/
structure DefinitionMap where
  values : List (String × Expr)

/-- Modelled from the spec (4.1): a fresh, empty `DefinitionMap`. -/
def DefinitionMap.empty : DefinitionMap := ⟨[]⟩

/-- Modelled from the spec (4.1): `set(key, expr)` records `expr` under
`key`, preserving insertion order. -/
def DefinitionMap.set (m : DefinitionMap) (key : String) (e : Expr) : DefinitionMap :=
  ⟨m.values ++ [(key, e)]⟩

/-- Modelled from the spec (4.1): `toLiteralMap()` produces a literal-map
expression containing exactly the keys that were set, in insertion
order. -/
def DefinitionMap.toLiteralMap (m : DefinitionMap) : Expr :=
  Expr.literalMap m.values

/-- Modelled from the spec (4.2): `refsToArray` from `util.ts`, which is
not part of the excerpt.  Lowers a reference sequence to an array-literal
expression of the value-expressions in input order; when
`containsForwardDecls` is true the array is instead wrapped in a
zero-argument closure that returns it when invoked. -/
def refsToArray (refs : List R3Reference) (containsForwardDecls : Bool) : Expr :=
  let values := Expr.literalArr (refs.map R3Reference.value)
  if containsForwardDecls then Expr.fn [] [Stmt.ret values] else values

/-- Modelled from the spec (4.4, 6): `jitOnlyGuardedExpression` from
`util.ts`, which is not part of the excerpt.  Wraps an expression in a
boolean short-circuit guard keyed on the runtime jit/development-mode
flag: `ngJitMode && expr`. -/
def jitOnlyGuardedExpression (e : Expr) : Expr :=
  Expr.andExpr (Expr.readVar "ngJitMode") e

/-- `generateSetNgModuleScopeCall`: builds the guarded side-effect
statement registering scope information, or `none` when all three of
declarations/imports/exports are empty. -/
def generateSetNgModuleScopeCall (meta : R3NgModuleMetadata) : Option Stmt :=
  let scopeMap : DefinitionMap := DefinitionMap.empty
  let scopeMap :=
    if meta.declarations.length > 0 then
      scopeMap.set "declarations" (refsToArray meta.declarations meta.containsForwardDecls)
    else scopeMap
  let scopeMap :=
    if meta.imports.length > 0 then
      scopeMap.set "imports" (refsToArray meta.imports meta.containsForwardDecls)
    else scopeMap
  let scopeMap :=
    if meta.exports.length > 0 then
      scopeMap.set "exports" (refsToArray meta.exports meta.containsForwardDecls)
    else scopeMap
  if scopeMap.values.length = 0 then
    none
  else
    let fnCall := Expr.invokeFn (Expr.importExpr "setNgModuleScope" [])
      [meta.adjacentType, scopeMap.toLiteralMap] false
    let guardedCall := jitOnlyGuardedExpression fnCall
    let iife := Expr.fn [] [Stmt.exprStmt guardedCall]
    let iifeCall := Expr.invokeFn iife [] false
    some (Stmt.exprStmt iifeCall)

/-- `tupleTypeOf`: the sentinel `NONE_TYPE` for an empty sequence,
otherwise a type-level tuple of `typeof` each reference's type
expression. -/
def tupleTypeOf (exp : List R3Reference) : Ty :=
  let types := exp.map (fun ref => Expr.typeofExpr ref.type)
  if exp.length > 0 then Ty.expressionType (Expr.literalArr types) else Ty.noneType

/-- `createNgModuleType`: the `NgModuleDeclaration` type instantiated
with the module's own type and the three tuple types for
declarations/imports/exports. -/
def createNgModuleType (meta : R3NgModuleMetadata) : Ty :=
  Ty.expressionType (Expr.importExpr "NgModuleDeclaration"
    [Ty.expressionType meta.type.type, tupleTypeOf meta.declarations,
     tupleTypeOf meta.imports, tupleTypeOf meta.exports])

/-- `compileNgModule`: the orchestrator producing the
`(expression, type, statements)` triple.  The imperative mutation of
`definitionMap` and `statements` in the source becomes sequential
shadowing `let`s, in source order; the mode branch touches only
`definitionMap` in its `Inline` arm and only `statements` in its
`SideEffect` arm, so the two accumulators are threaded separately. -/
def compileNgModule (meta : R3NgModuleMetadata) : R3CompiledExpression :=
  let statements : List Stmt := []
  let definitionMap := DefinitionMap.empty.set "type" meta.internalType
  let definitionMap :=
    if meta.bootstrap.length > 0 then
      definitionMap.set "bootstrap" (refsToArray meta.bootstrap meta.containsForwardDecls)
    else definitionMap
  let definitionMap :=
    if meta.selectorScopeMode = R3SelectorScopeMode.Inline then
      let definitionMap :=
        if meta.declarations.length > 0 then
          definitionMap.set "declarations" (refsToArray meta.declarations meta.containsForwardDecls)
        else definitionMap
      let definitionMap :=
        if meta.imports.length > 0 then
          definitionMap.set "imports" (refsToArray meta.imports meta.containsForwardDecls)
        else definitionMap
      let definitionMap :=
        if meta.exports.length > 0 then
          definitionMap.set "exports" (refsToArray meta.exports meta.containsForwardDecls)
        else definitionMap
      definitionMap
    else definitionMap
  let statements :=
    if meta.selectorScopeMode = R3SelectorScopeMode.SideEffect then
      match generateSetNgModuleScopeCall meta with
      | some setNgModuleScopeCall => statements ++ [setNgModuleScopeCall]
      | none => statements
    else statements
  let definitionMap :=
    match meta.schemas with
    | some schemas =>
      if schemas.length > 0 then
        definitionMap.set "schemas" (Expr.literalArr (schemas.map R3Reference.value))
      else definitionMap
    | none => definitionMap
  let definitionMap :=
    match meta.id with
    | some id => definitionMap.set "id" id
    | none => definitionMap
  let statements :=
    match meta.id with
    | some id =>
      statements ++ [Stmt.exprStmt (Expr.invokeFn
        (Expr.importExpr "registerNgModuleType" []) [meta.adjacentType, id] false)]
    | none => statements
  let expression := Expr.invokeFn (Expr.importExpr "defineNgModule" [])
    [definitionMap.toLiteralMap] true
  let type := createNgModuleType meta
  { expression := expression, type := type, statements := statements }

/-- `compileNgModuleDeclarationExpression`: the declaration-path emitter.
Each field present (not `undefined`) is wrapped as an opaque
`WrappedNodeExpr` and set in the fixed source order; only the definition
call expression is returned. -/
def compileNgModuleDeclarationExpression (meta : R3DeclareNgModuleFacade) : Expr :=
  let definitionMap := DefinitionMap.empty.set "type" (Expr.wrappedNode meta.type)
  let definitionMap :=
    match meta.bootstrap with
    | some b => definitionMap.set "bootstrap" (Expr.wrappedNode b)
    | none => definitionMap
  let definitionMap :=
    match meta.declarations with
    | some d => definitionMap.set "declarations" (Expr.wrappedNode d)
    | none => definitionMap
  let definitionMap :=
    match meta.imports with
    | some i => definitionMap.set "imports" (Expr.wrappedNode i)
    | none => definitionMap
  let definitionMap :=
    match meta.exports with
    | some e => definitionMap.set "exports" (Expr.wrappedNode e)
    | none => definitionMap
  let definitionMap :=
    match meta.schemas with
    | some s => definitionMap.set "schemas" (Expr.wrappedNode s)
    | none => definitionMap
  let definitionMap :=
    match meta.id with
    | some i => definitionMap.set "id" (Expr.wrappedNode i)
    | none => definitionMap
  Expr.invokeFn (Expr.importExpr "defineNgModule" []) [definitionMap.toLiteralMap] false

/-!
Characterizations used by the verification: extractors over the emitted
expression, closed forms for the definition-map entries and statement
list, and recognizers for the two kinds of side-effect statements.
-/

/-- The entries of the literal map passed to the definition call of an
emitted expression (`defineNgModule({...})`). -/
def definitionEntriesOf : Expr → List (String × Expr)
  | Expr.invokeFn _ [Expr.literalMap entries] _ => entries
  | _ => []

/-- First-match key lookup in a literal-map entry list. -/
def getKey (key : String) : List (String × Expr) → Option Expr
  | [] => none
  | (k, v) :: rest => if k = key then some v else getKey key rest

/-- The unconditional id-registration statement:
`registerNgModuleType(adjacentType, id)`. -/
def idRegistrationStmt (adjacentType id : Expr) : Stmt :=
  Stmt.exprStmt (Expr.invokeFn (Expr.importExpr "registerNgModuleType" [])
    [adjacentType, id] false)

/-- The guarded scope-registration statement: an immediately-invoked
zero-argument function whose body is the jit-mode-guarded call
`ngJitMode && setNgModuleScope(adjacentType, {entries})`. -/
def scopeRegistrationStmt (adjacentType : Expr) (entries : List (String × Expr)) : Stmt :=
  Stmt.exprStmt (Expr.invokeFn
    (Expr.fn [] [Stmt.exprStmt (Expr.andExpr (Expr.readVar "ngJitMode")
      (Expr.invokeFn (Expr.importExpr "setNgModuleScope" [])
        [adjacentType, Expr.literalMap entries] false))])
    [] false)

/-- The scope entries: exactly the non-empty ones of
declarations/imports/exports, in that order, each lowered via
`refsToArray` with `containsForwardDecls`. -/
def scopeEntries (meta : R3NgModuleMetadata) : List (String × Expr) :=
  (if meta.declarations.length > 0 then
    [("declarations", refsToArray meta.declarations meta.containsForwardDecls)] else [])
  ++ (if meta.imports.length > 0 then
    [("imports", refsToArray meta.imports meta.containsForwardDecls)] else [])
  ++ (if meta.exports.length > 0 then
    [("exports", refsToArray meta.exports meta.containsForwardDecls)] else [])

/-- Closed form of the main definition-map entries of `compileNgModule`. -/
def mainMapEntries (meta : R3NgModuleMetadata) : List (String × Expr) :=
  ("type", meta.internalType) ::
    ((if meta.bootstrap.length > 0 then
        [("bootstrap", refsToArray meta.bootstrap meta.containsForwardDecls)] else [])
     ++ (if meta.selectorScopeMode = R3SelectorScopeMode.Inline then scopeEntries meta else [])
     ++ (match meta.schemas with
         | some schemas =>
           if schemas.length > 0 then
             [("schemas", Expr.literalArr (schemas.map R3Reference.value))]
           else []
         | none => [])
     ++ (match meta.id with
         | some id => [("id", id)]
         | none => []))

/-- Closed form of the statement list of `compileNgModule`. -/
def mainStatements (meta : R3NgModuleMetadata) : List Stmt :=
  (if meta.selectorScopeMode = R3SelectorScopeMode.SideEffect then
    (generateSetNgModuleScopeCall meta).toList else [])
  ++ (match meta.id with
      | some id => [idRegistrationStmt meta.adjacentType id]
      | none => [])

/-- Recognizes a scope-registration statement: an invocation of a
function expression whose body is a short-circuit-guarded call to the
`setNgModuleScope` entry point. -/
def isScopeRegistrationStmt : Stmt → Bool
  | Stmt.exprStmt (Expr.invokeFn (Expr.fn _
      [Stmt.exprStmt (Expr.andExpr _ (Expr.invokeFn (Expr.importExpr sym _) _ _))]) _ _) =>
    sym == "setNgModuleScope"
  | _ => false

/-- Recognizes an id-registration statement: a direct (unguarded) call to
the `registerNgModuleType` entry point. -/
def isIdRegistrationStmt : Stmt → Bool
  | Stmt.exprStmt (Expr.invokeFn (Expr.importExpr sym _) _ _) =>
    sym == "registerNgModuleType"
  | _ => false

/-- `generateSetNgModuleScopeCall` characterized: `none` exactly when all
three scope sequences are empty, otherwise the guarded IIFE statement over
`adjacentType` and the scope entries. -/
theorem generateSetNgModuleScopeCall_eq (meta : R3NgModuleMetadata) :
    generateSetNgModuleScopeCall meta =
      if (scopeEntries meta).isEmpty then none
      else some (scopeRegistrationStmt meta.adjacentType (scopeEntries meta)) := by
  unfold generateSetNgModuleScopeCall scopeEntries scopeRegistrationStmt
    jitOnlyGuardedExpression DefinitionMap.empty DefinitionMap.set DefinitionMap.toLiteralMap
  by_cases hd : meta.declarations.length > 0 <;>
    by_cases hi : meta.imports.length > 0 <;>
    by_cases he : meta.exports.length > 0 <;>
    simp [hd, hi, he]

/-- The scope entries are empty exactly when all three sequences are. -/
theorem scopeEntries_eq_nil_iff (meta : R3NgModuleMetadata) :
    scopeEntries meta = [] ↔
      meta.declarations = [] ∧ meta.imports = [] ∧ meta.exports = [] := by
  unfold scopeEntries
  by_cases hd : meta.declarations.length > 0 <;>
    by_cases hi : meta.imports.length > 0 <;>
    by_cases he : meta.exports.length > 0 <;>
    simp_all [List.length_pos]

/-- The statement list of `compileNgModule`, in closed form. -/
theorem compileNgModule_statements (meta : R3NgModuleMetadata) :
    (compileNgModule meta).statements = mainStatements meta := by
  unfold compileNgModule mainStatements idRegistrationStmt
  cases hm : meta.selectorScopeMode <;>
    cases hid : meta.id <;>
    cases hg : generateSetNgModuleScopeCall meta <;>
    simp [hm, hid, hg, Option.toList]

/-- The compile-time type of `compileNgModule` is `createNgModuleType`. -/
theorem compileNgModule_type (meta : R3NgModuleMetadata) :
    (compileNgModule meta).type = createNgModuleType meta := by
  unfold compileNgModule
  rfl

/-- The emitted expression of `compileNgModule` is the pure
`defineNgModule` call over the closed-form entry list. -/
theorem compileNgModule_expression (meta : R3NgModuleMetadata) :
    (compileNgModule meta).expression =
      Expr.invokeFn (Expr.importExpr "defineNgModule" [])
        [Expr.literalMap (mainMapEntries meta)] true := by
  unfold compileNgModule mainMapEntries scopeEntries
    DefinitionMap.empty DefinitionMap.set DefinitionMap.toLiteralMap
  cases hm : meta.selectorScopeMode <;>
    by_cases hb : meta.bootstrap.length > 0 <;>
    by_cases hd : meta.declarations.length > 0 <;>
    by_cases hi : meta.imports.length > 0 <;>
    by_cases he : meta.exports.length > 0 <;>
    cases hs : meta.schemas <;>
    cases hid : meta.id <;>
    simp [hm, hb, hd, hi, he, hs, hid] <;>
    split_ifs <;>
    simp

/-- The first-set key of the main definition map is always `type`,
mapped to `internalType`. -/
theorem mainMapEntries_head (meta : R3NgModuleMetadata) :
    (mainMapEntries meta).head? = some ("type", meta.internalType) := rfl

/-- Lookup of `bootstrap` in the main definition map. -/
theorem getKey_main_bootstrap (meta : R3NgModuleMetadata) :
    getKey "bootstrap" (mainMapEntries meta) =
      if meta.bootstrap.length > 0 then
        some (refsToArray meta.bootstrap meta.containsForwardDecls)
      else none := by
  unfold mainMapEntries scopeEntries
  by_cases hm : meta.selectorScopeMode = R3SelectorScopeMode.Inline <;>
    by_cases hb : meta.bootstrap.length > 0 <;>
    by_cases hd : meta.declarations.length > 0 <;>
    by_cases hi : meta.imports.length > 0 <;>
    by_cases he : meta.exports.length > 0 <;>
    cases hs : meta.schemas <;>
    cases hid : meta.id <;>
    simp [hm, hb, hd, hi, he, hid, getKey] <;>
    split_ifs <;>
    simp [getKey]

/-- Lookup of `declarations` in the main definition map. -/
theorem getKey_main_declarations (meta : R3NgModuleMetadata) :
    getKey "declarations" (mainMapEntries meta) =
      if meta.selectorScopeMode = R3SelectorScopeMode.Inline ∧ meta.declarations.length > 0 then
        some (refsToArray meta.declarations meta.containsForwardDecls)
      else none := by
  unfold mainMapEntries scopeEntries
  by_cases hm : meta.selectorScopeMode = R3SelectorScopeMode.Inline <;>
    by_cases hb : meta.bootstrap.length > 0 <;>
    by_cases hd : meta.declarations.length > 0 <;>
    by_cases hi : meta.imports.length > 0 <;>
    by_cases he : meta.exports.length > 0 <;>
    cases hs : meta.schemas <;>
    cases hid : meta.id <;>
    simp [hm, hb, hd, hi, he, hid, getKey] <;>
    split_ifs <;>
    simp [getKey]

/-- Lookup of `imports` in the main definition map. -/
theorem getKey_main_imports (meta : R3NgModuleMetadata) :
    getKey "imports" (mainMapEntries meta) =
      if meta.selectorScopeMode = R3SelectorScopeMode.Inline ∧ meta.imports.length > 0 then
        some (refsToArray meta.imports meta.containsForwardDecls)
      else none := by
  unfold mainMapEntries scopeEntries
  by_cases hm : meta.selectorScopeMode = R3SelectorScopeMode.Inline <;>
    by_cases hb : meta.bootstrap.length > 0 <;>
    by_cases hd : meta.declarations.length > 0 <;>
    by_cases hi : meta.imports.length > 0 <;>
    by_cases he : meta.exports.length > 0 <;>
    cases hs : meta.schemas <;>
    cases hid : meta.id <;>
    simp [hm, hb, hd, hi, he, hid, getKey] <;>
    split_ifs <;>
    simp [getKey]

/-- Lookup of `exports` in the main definition map. -/
theorem getKey_main_exports (meta : R3NgModuleMetadata) :
    getKey "exports" (mainMapEntries meta) =
      if meta.selectorScopeMode = R3SelectorScopeMode.Inline ∧ meta.exports.length > 0 then
        some (refsToArray meta.exports meta.containsForwardDecls)
      else none := by
  unfold mainMapEntries scopeEntries
  by_cases hm : meta.selectorScopeMode = R3SelectorScopeMode.Inline <;>
    by_cases hb : meta.bootstrap.length > 0 <;>
    by_cases hd : meta.declarations.length > 0 <;>
    by_cases hi : meta.imports.length > 0 <;>
    by_cases he : meta.exports.length > 0 <;>
    cases hs : meta.schemas <;>
    cases hid : meta.id <;>
    simp [hm, hb, hd, hi, he, hid, getKey] <;>
    split_ifs <;>
    simp [getKey]

/-- Lookup of `schemas` in the main definition map. -/
theorem getKey_main_schemas (meta : R3NgModuleMetadata) :
    getKey "schemas" (mainMapEntries meta) =
      (match meta.schemas with
       | some schemas =>
         if schemas.length > 0 then
           some (Expr.literalArr (schemas.map R3Reference.value))
         else none
       | none => none) := by
  unfold mainMapEntries scopeEntries
  by_cases hm : meta.selectorScopeMode = R3SelectorScopeMode.Inline <;>
    by_cases hb : meta.bootstrap.length > 0 <;>
    by_cases hd : meta.declarations.length > 0 <;>
    by_cases hi : meta.imports.length > 0 <;>
    by_cases he : meta.exports.length > 0 <;>
    cases hs : meta.schemas <;>
    cases hid : meta.id <;>
    simp [hm, hb, hd, hi, he, hid, getKey] <;>
    split_ifs <;>
    simp [getKey]

/-- Lookup of `id` in the main definition map. -/
theorem getKey_main_id (meta : R3NgModuleMetadata) :
    getKey "id" (mainMapEntries meta) = meta.id := by
  unfold mainMapEntries scopeEntries
  by_cases hm : meta.selectorScopeMode = R3SelectorScopeMode.Inline <;>
    by_cases hb : meta.bootstrap.length > 0 <;>
    by_cases hd : meta.declarations.length > 0 <;>
    by_cases hi : meta.imports.length > 0 <;>
    by_cases he : meta.exports.length > 0 <;>
    cases hs : meta.schemas <;>
    cases hid : meta.id <;>
    simp [hm, hb, hd, hi, he, hid, getKey] <;>
    split_ifs <;>
    simp [getKey]

/-- The literal-map entries of the emitted `defineNgModule` call are the
closed-form entries. -/
theorem definitionEntriesOf_compileNgModule (meta : R3NgModuleMetadata) :
    definitionEntriesOf (compileNgModule meta).expression = mainMapEntries meta := by
  rw [compileNgModule_expression]
  rfl

/-- The scope statement is recognized as a scope-registration statement. -/
theorem isScopeRegistrationStmt_scope (a : Expr) (es : List (String × Expr)) :
    isScopeRegistrationStmt (scopeRegistrationStmt a es) = true := rfl

/-- The id statement is not a scope-registration statement. -/
theorem isScopeRegistrationStmt_id (a i : Expr) :
    isScopeRegistrationStmt (idRegistrationStmt a i) = false := rfl

/-- The id statement is recognized as an id-registration statement. -/
theorem isIdRegistrationStmt_id (a i : Expr) :
    isIdRegistrationStmt (idRegistrationStmt a i) = true := rfl

/-- The scope statement is not an id-registration statement. -/
theorem isIdRegistrationStmt_scope (a : Expr) (es : List (String × Expr)) :
    isIdRegistrationStmt (scopeRegistrationStmt a es) = false := rfl

/-- One optional entry of the declaration-path definition map. -/
def optEntry (key : String) : Option Nat → List (String × Expr)
  | some n => [(key, Expr.wrappedNode n)]
  | none => []

/-- `compileNgModuleDeclarationExpression` characterized: a (non-pure)
`defineNgModule` call whose map holds each present field as a wrapped
node, in the fixed order type, bootstrap, declarations, imports, exports,
schemas, id. -/
theorem compileNgModuleDeclarationExpression_eq (meta : R3DeclareNgModuleFacade) :
    compileNgModuleDeclarationExpression meta =
      Expr.invokeFn (Expr.importExpr "defineNgModule" [])
        [Expr.literalMap (("type", Expr.wrappedNode meta.type) ::
          (optEntry "bootstrap" meta.bootstrap ++ optEntry "declarations" meta.declarations ++
           optEntry "imports" meta.imports ++ optEntry "exports" meta.exports ++
           optEntry "schemas" meta.schemas ++ optEntry "id" meta.id))] false := by
  unfold compileNgModuleDeclarationExpression optEntry
    DefinitionMap.empty DefinitionMap.set DefinitionMap.toLiteralMap
  cases hb : meta.bootstrap <;>
    cases hd : meta.declarations <;>
    cases hi : meta.imports <;>
    cases he : meta.exports <;>
    cases hs : meta.schemas <;>
    cases hid : meta.id <;>
    simp [hb, hd, hi, he, hs, hid]

/-- Instrumented copy of `generateSetNgModuleScopeCall`: identical
control flow, but also returns the argument sequence of every
`refsToArray` call it performs, in call order. -/
def generateSetNgModuleScopeCallInstr (meta : R3NgModuleMetadata) :
    Option Stmt × List (List R3Reference) :=
  let acc : DefinitionMap × List (List R3Reference) := (DefinitionMap.empty, [])
  let acc :=
    if meta.declarations.length > 0 then
      (acc.1.set "declarations" (refsToArray meta.declarations meta.containsForwardDecls),
       acc.2 ++ [meta.declarations])
    else acc
  let acc :=
    if meta.imports.length > 0 then
      (acc.1.set "imports" (refsToArray meta.imports meta.containsForwardDecls),
       acc.2 ++ [meta.imports])
    else acc
  let acc :=
    if meta.exports.length > 0 then
      (acc.1.set "exports" (refsToArray meta.exports meta.containsForwardDecls),
       acc.2 ++ [meta.exports])
    else acc
  if acc.1.values.length = 0 then
    (none, acc.2)
  else
    let fnCall := Expr.invokeFn (Expr.importExpr "setNgModuleScope" [])
      [meta.adjacentType, acc.1.toLiteralMap] false
    let guardedCall := jitOnlyGuardedExpression fnCall
    let iife := Expr.fn [] [Stmt.exprStmt guardedCall]
    let iifeCall := Expr.invokeFn iife [] false
    (some (Stmt.exprStmt iifeCall), acc.2)

/-- Instrumented copy of `compileNgModule`: identical control flow, but
also returns the argument sequence of every `refsToArray` call made by it
or by its delegate `generateSetNgModuleScopeCallInstr`. -/
def compileNgModuleInstr (meta : R3NgModuleMetadata) :
    R3CompiledExpression × List (List R3Reference) :=
  let statements : List Stmt := []
  let log : List (List R3Reference) := []
  let definitionMap := DefinitionMap.empty.set "type" meta.internalType
  let mapLog : DefinitionMap × List (List R3Reference) :=
    if meta.bootstrap.length > 0 then
      (definitionMap.set "bootstrap" (refsToArray meta.bootstrap meta.containsForwardDecls),
       log ++ [meta.bootstrap])
    else (definitionMap, log)
  let mapLog :=
    if meta.selectorScopeMode = R3SelectorScopeMode.Inline then
      let mapLog :=
        if meta.declarations.length > 0 then
          (mapLog.1.set "declarations" (refsToArray meta.declarations meta.containsForwardDecls),
           mapLog.2 ++ [meta.declarations])
        else mapLog
      let mapLog :=
        if meta.imports.length > 0 then
          (mapLog.1.set "imports" (refsToArray meta.imports meta.containsForwardDecls),
           mapLog.2 ++ [meta.imports])
        else mapLog
      let mapLog :=
        if meta.exports.length > 0 then
          (mapLog.1.set "exports" (refsToArray meta.exports meta.containsForwardDecls),
           mapLog.2 ++ [meta.exports])
        else mapLog
      mapLog
    else mapLog
  let stmtsLog : List Stmt × List (List R3Reference) :=
    if meta.selectorScopeMode = R3SelectorScopeMode.SideEffect then
      let sub := generateSetNgModuleScopeCallInstr meta
      (match sub.1 with
       | some setNgModuleScopeCall => statements ++ [setNgModuleScopeCall]
       | none => statements,
       mapLog.2 ++ sub.2)
    else (statements, mapLog.2)
  let statements := stmtsLog.1
  let definitionMap :=
    match meta.schemas with
    | some schemas =>
      if schemas.length > 0 then
        mapLog.1.set "schemas" (Expr.literalArr (schemas.map R3Reference.value))
      else mapLog.1
    | none => mapLog.1
  let definitionMap :=
    match meta.id with
    | some id => definitionMap.set "id" id
    | none => definitionMap
  let statements :=
    match meta.id with
    | some id =>
      statements ++ [Stmt.exprStmt (Expr.invokeFn
        (Expr.importExpr "registerNgModuleType" []) [meta.adjacentType, id] false)]
    | none => statements
  let expression := Expr.invokeFn (Expr.importExpr "defineNgModule" [])
    [definitionMap.toLiteralMap] true
  let type := createNgModuleType meta
  ({ expression := expression, type := type, statements := statements }, stmtsLog.2)

/-- The sequences handed to `refsToArray` by the scope-call generator. -/
def scopeCallLog (meta : R3NgModuleMetadata) : List (List R3Reference) :=
  (if meta.declarations.length > 0 then [meta.declarations] else [])
  ++ (if meta.imports.length > 0 then [meta.imports] else [])
  ++ (if meta.exports.length > 0 then [meta.exports] else [])

/-- The instrumented scope-call generator computes the original result. -/
theorem generateSetNgModuleScopeCallInstr_fst (meta : R3NgModuleMetadata) :
    (generateSetNgModuleScopeCallInstr meta).1 = generateSetNgModuleScopeCall meta := by
  unfold generateSetNgModuleScopeCallInstr generateSetNgModuleScopeCall
  by_cases hd : meta.declarations.length > 0 <;>
    by_cases hi : meta.imports.length > 0 <;>
    by_cases he : meta.exports.length > 0 <;>
    simp [hd, hi, he, DefinitionMap.empty, DefinitionMap.set, DefinitionMap.toLiteralMap]

/-- The instrumented scope-call generator logs exactly the guarded
sequences. -/
theorem generateSetNgModuleScopeCallInstr_log (meta : R3NgModuleMetadata) :
    (generateSetNgModuleScopeCallInstr meta).2 = scopeCallLog meta := by
  unfold generateSetNgModuleScopeCallInstr scopeCallLog
  by_cases hd : meta.declarations.length > 0 <;>
    by_cases hi : meta.imports.length > 0 <;>
    by_cases he : meta.exports.length > 0 <;>
    simp [hd, hi, he, DefinitionMap.empty, DefinitionMap.set, DefinitionMap.toLiteralMap]

/-- The instrumented orchestrator computes the original result. -/
theorem compileNgModuleInstr_fst (meta : R3NgModuleMetadata) :
    (compileNgModuleInstr meta).1 = compileNgModule meta := by
  unfold compileNgModuleInstr compileNgModule
  simp only [generateSetNgModuleScopeCallInstr_fst]
  cases hm : meta.selectorScopeMode <;>
    by_cases hb : meta.bootstrap.length > 0 <;>
    by_cases hd : meta.declarations.length > 0 <;>
    by_cases hi : meta.imports.length > 0 <;>
    by_cases he : meta.exports.length > 0 <;>
    cases hg : generateSetNgModuleScopeCall meta <;>
    simp [hm, hb, hd, hi, he, hg, DefinitionMap.empty, DefinitionMap.set,
      DefinitionMap.toLiteralMap]

/-- The instrumented orchestrator logs exactly the guarded sequences. -/
theorem compileNgModuleInstr_log (meta : R3NgModuleMetadata) :
    (compileNgModuleInstr meta).2 =
      (if meta.bootstrap.length > 0 then [meta.bootstrap] else [])
      ++ (if meta.selectorScopeMode = R3SelectorScopeMode.Inline then scopeCallLog meta else [])
      ++ (if meta.selectorScopeMode = R3SelectorScopeMode.SideEffect then scopeCallLog meta
          else []) := by
  unfold compileNgModuleInstr scopeCallLog
  simp only [generateSetNgModuleScopeCallInstr_log]
  cases hm : meta.selectorScopeMode <;>
    by_cases hb : meta.bootstrap.length > 0 <;>
    by_cases hd : meta.declarations.length > 0 <;>
    by_cases hi : meta.imports.length > 0 <;>
    by_cases he : meta.exports.length > 0 <;>
    simp [hm, hb, hd, hi, he, scopeCallLog]

/-!
Sample inputs used by the witnesses.
-/

/-- A sample reference. -/
def refA : R3Reference := ⟨Expr.atom 1, Expr.atom 2⟩

/-- Another sample reference. -/
def refB : R3Reference := ⟨Expr.atom 3, Expr.atom 4⟩

/-- A minimal metadata record: everything empty or absent, mode `Omit`. -/
def metaBase : R3NgModuleMetadata :=
  { type := refA, internalType := Expr.atom 0, adjacentType := Expr.atom 5,
    bootstrap := [], declarations := [], imports := [], exports := [],
    selectorScopeMode := R3SelectorScopeMode.Omit, containsForwardDecls := false,
    schemas := none, id := none }

/-- Sample metadata in `SideEffect` mode with one declaration. -/
def mSE : R3NgModuleMetadata :=
  { metaBase with
    selectorScopeMode := R3SelectorScopeMode.SideEffect,
    declarations := [refA] }

/-- Sample metadata in `Inline` mode with a declaration and an import. -/
def mIn : R3NgModuleMetadata :=
  { metaBase with
    selectorScopeMode := R3SelectorScopeMode.Inline,
    declarations := [refA],
    imports := [refB] }

/-- Sample metadata with forward declarations and a bootstrap entry. -/
def mFwd : R3NgModuleMetadata :=
  { metaBase with
    containsForwardDecls := true,
    bootstrap := [refA],
    imports := [refA, refB] }

/-- Sample metadata in `SideEffect` mode with a declaration and an id. -/
def m10 : R3NgModuleMetadata :=
  { metaBase with
    selectorScopeMode := R3SelectorScopeMode.SideEffect,
    declarations := [refA],
    id := some (Expr.atom 9) }

/-- Sample declaration-path facade with only `type` and `imports`. -/
def mDecl : R3DeclareNgModuleFacade :=
  { type := 0, bootstrap := none, declarations := none, imports := some 1,
    exports := none, schemas := none, id := none }

/-!
The claims.
-/

/-- C1: for `selectorScopeMode = SideEffect`, `compileNgModule` sets none
of the declarations/imports/exports keys on the main definition map; if at
least one of the three sequences is non-empty the output statements
contain exactly one scope-registration statement — an immediately-invoked
zero-argument function whose body is the development-mode-guarded call to
the scope-registration entry point with `(adjacentType, scopeMap)`, the
scope map holding exactly the non-empty sequences in
declarations/imports/exports order — and if all three are empty no
scope-registration statement is emitted at all. -/
theorem sideEffect_scope_emission (meta : R3NgModuleMetadata)
    (h : meta.selectorScopeMode = R3SelectorScopeMode.SideEffect) :
    getKey "declarations" (definitionEntriesOf (compileNgModule meta).expression) = none
    ∧ getKey "imports" (definitionEntriesOf (compileNgModule meta).expression) = none
    ∧ getKey "exports" (definitionEntriesOf (compileNgModule meta).expression) = none
    ∧ (¬(meta.declarations = [] ∧ meta.imports = [] ∧ meta.exports = []) →
        (compileNgModule meta).statements.filter isScopeRegistrationStmt
          = [scopeRegistrationStmt meta.adjacentType (scopeEntries meta)])
    ∧ ((meta.declarations = [] ∧ meta.imports = [] ∧ meta.exports = []) →
        (compileNgModule meta).statements.filter isScopeRegistrationStmt = []) := by
  have hmap := definitionEntriesOf_compileNgModule meta
  refine ⟨?_, ?_, ?_, ?_, ?_⟩
  · rw [hmap, getKey_main_declarations]; simp [h]
  · rw [hmap, getKey_main_imports]; simp [h]
  · rw [hmap, getKey_main_exports]; simp [h]
  · intro hne
    have hsc : ¬scopeEntries meta = [] := fun hnil =>
      hne ((scopeEntries_eq_nil_iff meta).mp hnil)
    have hscb : (scopeEntries meta).isEmpty = false := by
      rw [Bool.eq_false_iff, Ne, List.isEmpty_iff]; exact hsc
    rw [compileNgModule_statements]
    unfold mainStatements
    rw [generateSetNgModuleScopeCall_eq]
    cases hid : meta.id <;>
      simp [h, hscb, isScopeRegistrationStmt_scope, isScopeRegistrationStmt_id]
  · intro hall
    have hsc : scopeEntries meta = [] := (scopeEntries_eq_nil_iff meta).mpr hall
    rw [compileNgModule_statements]
    unfold mainStatements
    rw [generateSetNgModuleScopeCall_eq]
    cases hid : meta.id <;>
      simp [h, hsc, isScopeRegistrationStmt_id]

/-- C1 witness. -/
theorem sideEffect_scope_emission_witness :
    mSE.selectorScopeMode = R3SelectorScopeMode.SideEffect
    ∧ ¬(mSE.declarations = [] ∧ mSE.imports = [] ∧ mSE.exports = [])
    ∧ (compileNgModule mSE).statements.filter isScopeRegistrationStmt
        = [scopeRegistrationStmt mSE.adjacentType (scopeEntries mSE)] := by
  refine ⟨rfl, by simp [mSE, metaBase], ?_⟩
  exact (sideEffect_scope_emission mSE rfl).2.2.2.1 (by simp [mSE, metaBase])

/-- C2: for `selectorScopeMode = Inline`, each of the declarations,
imports and exports keys is set on the main definition map exactly when
the corresponding sequence is non-empty (lowered via `refsToArray` with
`containsForwardDecls`), and the output statements contain no
scope-registration statement. -/
theorem inline_scope_emission (meta : R3NgModuleMetadata)
    (h : meta.selectorScopeMode = R3SelectorScopeMode.Inline) :
    (compileNgModule meta).statements.filter isScopeRegistrationStmt = []
    ∧ getKey "declarations" (definitionEntriesOf (compileNgModule meta).expression)
        = (if meta.declarations.length > 0 then
            some (refsToArray meta.declarations meta.containsForwardDecls) else none)
    ∧ getKey "imports" (definitionEntriesOf (compileNgModule meta).expression)
        = (if meta.imports.length > 0 then
            some (refsToArray meta.imports meta.containsForwardDecls) else none)
    ∧ getKey "exports" (definitionEntriesOf (compileNgModule meta).expression)
        = (if meta.exports.length > 0 then
            some (refsToArray meta.exports meta.containsForwardDecls) else none) := by
  have hmap := definitionEntriesOf_compileNgModule meta
  refine ⟨?_, ?_, ?_, ?_⟩
  · rw [compileNgModule_statements]
    unfold mainStatements
    cases hid : meta.id <;>
      simp [h, isScopeRegistrationStmt_id]
  · rw [hmap, getKey_main_declarations]; simp [h]
  · rw [hmap, getKey_main_imports]; simp [h]
  · rw [hmap, getKey_main_exports]; simp [h]

/-- C2 witness. -/
theorem inline_scope_emission_witness :
    mIn.selectorScopeMode = R3SelectorScopeMode.Inline
    ∧ (compileNgModule mIn).statements.filter isScopeRegistrationStmt = []
    ∧ getKey "declarations" (definitionEntriesOf (compileNgModule mIn).expression)
        = (if mIn.declarations.length > 0 then
            some (refsToArray mIn.declarations mIn.containsForwardDecls) else none) :=
  ⟨rfl, (inline_scope_emission mIn rfl).1, (inline_scope_emission mIn rfl).2.1⟩

/-- C3: every non-empty sequence among bootstrap/declarations/imports/
exports lowered by `compileNgModule` or `generateSetNgModuleScopeCall`
becomes, when `containsForwardDecls` is true, a zero-argument closure
returning the array of the references' value-expressions in input order,
and when false the direct array literal. -/
theorem forward_decl_lowering (meta : R3NgModuleMetadata) :
    (meta.bootstrap ≠ [] →
      getKey "bootstrap" (definitionEntriesOf (compileNgModule meta).expression) =
        some (if meta.containsForwardDecls then
                Expr.fn [] [Stmt.ret (Expr.literalArr (meta.bootstrap.map R3Reference.value))]
              else Expr.literalArr (meta.bootstrap.map R3Reference.value)))
    ∧ (meta.selectorScopeMode = R3SelectorScopeMode.Inline → meta.declarations ≠ [] →
        getKey "declarations" (definitionEntriesOf (compileNgModule meta).expression) =
          some (if meta.containsForwardDecls then
                  Expr.fn [] [Stmt.ret (Expr.literalArr (meta.declarations.map R3Reference.value))]
                else Expr.literalArr (meta.declarations.map R3Reference.value)))
    ∧ (meta.selectorScopeMode = R3SelectorScopeMode.Inline → meta.imports ≠ [] →
        getKey "imports" (definitionEntriesOf (compileNgModule meta).expression) =
          some (if meta.containsForwardDecls then
                  Expr.fn [] [Stmt.ret (Expr.literalArr (meta.imports.map R3Reference.value))]
                else Expr.literalArr (meta.imports.map R3Reference.value)))
    ∧ (meta.selectorScopeMode = R3SelectorScopeMode.Inline → meta.exports ≠ [] →
        getKey "exports" (definitionEntriesOf (compileNgModule meta).expression) =
          some (if meta.containsForwardDecls then
                  Expr.fn [] [Stmt.ret (Expr.literalArr (meta.exports.map R3Reference.value))]
                else Expr.literalArr (meta.exports.map R3Reference.value)))
    ∧ (meta.declarations ≠ [] →
        generateSetNgModuleScopeCall meta =
          some (scopeRegistrationStmt meta.adjacentType (scopeEntries meta))
        ∧ getKey "declarations" (scopeEntries meta) =
            some (if meta.containsForwardDecls then
                    Expr.fn [] [Stmt.ret (Expr.literalArr (meta.declarations.map R3Reference.value))]
                  else Expr.literalArr (meta.declarations.map R3Reference.value)))
    ∧ (meta.imports ≠ [] →
        generateSetNgModuleScopeCall meta =
          some (scopeRegistrationStmt meta.adjacentType (scopeEntries meta))
        ∧ getKey "imports" (scopeEntries meta) =
            some (if meta.containsForwardDecls then
                    Expr.fn [] [Stmt.ret (Expr.literalArr (meta.imports.map R3Reference.value))]
                  else Expr.literalArr (meta.imports.map R3Reference.value)))
    ∧ (meta.exports ≠ [] →
        generateSetNgModuleScopeCall meta =
          some (scopeRegistrationStmt meta.adjacentType (scopeEntries meta))
        ∧ getKey "exports" (scopeEntries meta) =
            some (if meta.containsForwardDecls then
                    Expr.fn [] [Stmt.ret (Expr.literalArr (meta.exports.map R3Reference.value))]
                  else Expr.literalArr (meta.exports.map R3Reference.value))) := by
  have hmap := definitionEntriesOf_compileNgModule meta
  refine ⟨?_, ?_, ?_, ?_, ?_, ?_, ?_⟩
  · intro hb
    rw [hmap, getKey_main_bootstrap]
    simp [List.length_pos.mpr hb, refsToArray]
  · intro h hd
    rw [hmap, getKey_main_declarations]
    simp [h, List.length_pos.mpr hd, refsToArray]
  · intro h hi
    rw [hmap, getKey_main_imports]
    simp [h, List.length_pos.mpr hi, refsToArray]
  · intro h he
    rw [hmap, getKey_main_exports]
    simp [h, List.length_pos.mpr he, refsToArray]
  · intro hd
    have hsc : ¬scopeEntries meta = [] := fun hnil =>
      hd ((scopeEntries_eq_nil_iff meta).mp hnil).1
    have hscb : (scopeEntries meta).isEmpty = false := by
      rw [Bool.eq_false_iff, Ne, List.isEmpty_iff]; exact hsc
    refine ⟨by rw [generateSetNgModuleScopeCall_eq]; simp [hscb], ?_⟩
    unfold scopeEntries
    by_cases hi : meta.imports.length > 0 <;>
      by_cases he : meta.exports.length > 0 <;>
      simp [List.length_pos.mpr hd, hi, he, getKey, refsToArray]
  · intro hi
    have hsc : ¬scopeEntries meta = [] := fun hnil =>
      hi ((scopeEntries_eq_nil_iff meta).mp hnil).2.1
    have hscb : (scopeEntries meta).isEmpty = false := by
      rw [Bool.eq_false_iff, Ne, List.isEmpty_iff]; exact hsc
    refine ⟨by rw [generateSetNgModuleScopeCall_eq]; simp [hscb], ?_⟩
    unfold scopeEntries
    by_cases hd : meta.declarations.length > 0 <;>
      by_cases he : meta.exports.length > 0 <;>
      simp [hd, List.length_pos.mpr hi, he, getKey, refsToArray]
  · intro he
    have hsc : ¬scopeEntries meta = [] := fun hnil =>
      he ((scopeEntries_eq_nil_iff meta).mp hnil).2.2
    have hscb : (scopeEntries meta).isEmpty = false := by
      rw [Bool.eq_false_iff, Ne, List.isEmpty_iff]; exact hsc
    refine ⟨by rw [generateSetNgModuleScopeCall_eq]; simp [hscb], ?_⟩
    unfold scopeEntries
    by_cases hd : meta.declarations.length > 0 <;>
      by_cases hi : meta.imports.length > 0 <;>
      simp [hd, hi, List.length_pos.mpr he, getKey, refsToArray]

/-- C3 witness: exercises both the bootstrap lowering and the scope-call
lowering of imports at an input whose declarations are empty. -/
theorem forward_decl_lowering_witness :
    mFwd.bootstrap ≠ []
    ∧ getKey "bootstrap" (definitionEntriesOf (compileNgModule mFwd).expression) =
        some (if mFwd.containsForwardDecls then
                Expr.fn [] [Stmt.ret (Expr.literalArr (mFwd.bootstrap.map R3Reference.value))]
              else Expr.literalArr (mFwd.bootstrap.map R3Reference.value))
    ∧ mFwd.declarations = []
    ∧ mFwd.imports ≠ []
    ∧ (generateSetNgModuleScopeCall mFwd =
        some (scopeRegistrationStmt mFwd.adjacentType (scopeEntries mFwd))
       ∧ getKey "imports" (scopeEntries mFwd) =
          some (if mFwd.containsForwardDecls then
                  Expr.fn [] [Stmt.ret (Expr.literalArr (mFwd.imports.map R3Reference.value))]
                else Expr.literalArr (mFwd.imports.map R3Reference.value))) := by
  have hb : mFwd.bootstrap ≠ [] := by simp [mFwd, metaBase]
  have hi : mFwd.imports ≠ [] := by simp [mFwd, metaBase]
  exact ⟨hb, (forward_decl_lowering mFwd).1 hb, rfl, hi,
    (forward_decl_lowering mFwd).2.2.2.2.2.1 hi⟩

/-- C4: the id key is set on the main definition map exactly when `id` is
present (to the id expression itself), and the output statements contain
exactly one unconditional id-registration statement
`registerNgModuleType(adjacentType, id)` when `id` is present and none
when it is absent. -/
theorem id_registration (meta : R3NgModuleMetadata) :
    getKey "id" (definitionEntriesOf (compileNgModule meta).expression) = meta.id
    ∧ (compileNgModule meta).statements.filter isIdRegistrationStmt =
        (match meta.id with
         | some id => [idRegistrationStmt meta.adjacentType id]
         | none => []) := by
  refine ⟨by rw [definitionEntriesOf_compileNgModule, getKey_main_id], ?_⟩
  rw [compileNgModule_statements]
  unfold mainStatements
  rw [generateSetNgModuleScopeCall_eq]
  by_cases hm : meta.selectorScopeMode = R3SelectorScopeMode.SideEffect <;>
    by_cases hsc : (scopeEntries meta).isEmpty <;>
    cases hid : meta.id <;>
    simp [hm, hsc, hid, isIdRegistrationStmt_id, isIdRegistrationStmt_scope]

/-- C5: `createNgModuleType` returns the module-declaration type
parametrized by exactly the metadata's own type expression and the tuple
types of declarations, imports and exports; `tupleTypeOf` yields the
no-references sentinel for an empty sequence and otherwise the type-level
tuple of the references' type expressions; bootstrap and schemas never
contribute. -/
theorem ngModuleType_shape (meta : R3NgModuleMetadata) :
    createNgModuleType meta =
      Ty.expressionType (Expr.importExpr "NgModuleDeclaration"
        [Ty.expressionType meta.type.type, tupleTypeOf meta.declarations,
         tupleTypeOf meta.imports, tupleTypeOf meta.exports])
    ∧ tupleTypeOf [] = Ty.noneType
    ∧ (∀ refs : List R3Reference, refs ≠ [] →
        tupleTypeOf refs =
          Ty.expressionType (Expr.literalArr (refs.map fun ref => Expr.typeofExpr ref.type)))
    ∧ (∀ b s, createNgModuleType { meta with bootstrap := b, schemas := s } =
        createNgModuleType meta) := by
  refine ⟨rfl, rfl, ?_, ?_⟩
  · intro refs h
    unfold tupleTypeOf
    simp [List.length_pos.mpr h]
  · intro b s
    rfl

/-- C5 witness. -/
theorem ngModuleType_shape_witness :
    ([refA] : List R3Reference) ≠ []
    ∧ tupleTypeOf [refA] =
        Ty.expressionType (Expr.literalArr ([refA].map fun ref => Expr.typeofExpr ref.type))
    ∧ createNgModuleType { metaBase with bootstrap := [refB], schemas := some [refB] } =
        createNgModuleType metaBase :=
  ⟨by simp, (ngModuleType_shape metaBase).2.2.1 [refA] (by simp),
    (ngModuleType_shape metaBase).2.2.2 [refB] (some [refB])⟩

/-- C6: the declaration-path emitter tests presence (field defined) for
each field, sets each present field as an opaque wrapped expression on a
fresh definition map in the fixed order type, bootstrap, declarations,
imports, exports, schemas, id, and returns only the definition-call
expression; with only type and imports present, the map holds exactly
those two keys in that order. -/
theorem declaration_path_emission (meta : R3DeclareNgModuleFacade) :
    compileNgModuleDeclarationExpression meta =
      Expr.invokeFn (Expr.importExpr "defineNgModule" [])
        [Expr.literalMap (("type", Expr.wrappedNode meta.type) ::
          (optEntry "bootstrap" meta.bootstrap ++ optEntry "declarations" meta.declarations ++
           optEntry "imports" meta.imports ++ optEntry "exports" meta.exports ++
           optEntry "schemas" meta.schemas ++ optEntry "id" meta.id))] false
    ∧ (meta.bootstrap = none → meta.declarations = none → meta.exports = none →
       meta.schemas = none → meta.id = none → ∀ i, meta.imports = some i →
       definitionEntriesOf (compileNgModuleDeclarationExpression meta) =
         [("type", Expr.wrappedNode meta.type), ("imports", Expr.wrappedNode i)]) := by
  refine ⟨compileNgModuleDeclarationExpression_eq meta, ?_⟩
  intro hb hd he hs hid i hi
  rw [compileNgModuleDeclarationExpression_eq]
  simp [definitionEntriesOf, optEntry, hb, hd, he, hs, hid, hi]

/-- C6 witness. -/
theorem declaration_path_emission_witness :
    mDecl.bootstrap = none ∧ mDecl.imports = some 1
    ∧ definitionEntriesOf (compileNgModuleDeclarationExpression mDecl) =
        [("type", Expr.wrappedNode mDecl.type), ("imports", Expr.wrappedNode 1)] :=
  ⟨rfl, rfl, (declaration_path_emission mDecl).2 rfl rfl rfl rfl rfl 1 rfl⟩

/-- C7: the schemas key is set on the main definition map exactly when
`schemas` is present and non-empty, and its value is the direct literal
array of the schema references' value-expressions — never wrapped in a
forward-declaration closure, whatever `containsForwardDecls` is. -/
theorem schemas_emission (meta : R3NgModuleMetadata) :
    getKey "schemas" (definitionEntriesOf (compileNgModule meta).expression) =
      (match meta.schemas with
       | some schemas =>
         if schemas.length > 0 then some (Expr.literalArr (schemas.map R3Reference.value))
         else none
       | none => none) := by
  rw [definitionEntriesOf_compileNgModule, getKey_main_schemas]

/-- C8: the main definition map's first-set key is always `type`, mapped
to `internalType`, and the bootstrap key is present exactly when
`bootstrap` is non-empty, lowered via `refsToArray` with
`containsForwardDecls`. -/
theorem type_and_bootstrap_emission (meta : R3NgModuleMetadata) :
    (definitionEntriesOf (compileNgModule meta).expression).head? =
      some ("type", meta.internalType)
    ∧ getKey "bootstrap" (definitionEntriesOf (compileNgModule meta).expression) =
        (if meta.bootstrap.length > 0 then
          some (refsToArray meta.bootstrap meta.containsForwardDecls) else none) := by
  rw [definitionEntriesOf_compileNgModule]
  exact ⟨mainMapEntries_head meta, getKey_main_bootstrap meta⟩

/-- C9: no call to `refsToArray` made by `compileNgModule` or
`generateSetNgModuleScopeCall` receives an empty reference sequence: the
instrumented copies, which log every sequence passed to `refsToArray` and
compute the very same results, only ever log non-empty sequences. -/
theorem refsToArray_call_sites_guarded (meta : R3NgModuleMetadata) :
    (compileNgModuleInstr meta).1 = compileNgModule meta
    ∧ (generateSetNgModuleScopeCallInstr meta).1 = generateSetNgModuleScopeCall meta
    ∧ (∀ refs ∈ (compileNgModuleInstr meta).2, refs ≠ [])
    ∧ (∀ refs ∈ (generateSetNgModuleScopeCallInstr meta).2, refs ≠ []) := by
  refine ⟨compileNgModuleInstr_fst meta, generateSetNgModuleScopeCallInstr_fst meta, ?_, ?_⟩
  · rw [compileNgModuleInstr_log]
    cases hm : meta.selectorScopeMode <;>
      by_cases hb : meta.bootstrap.length > 0 <;>
      by_cases hd : meta.declarations.length > 0 <;>
      by_cases hi : meta.imports.length > 0 <;>
      by_cases he : meta.exports.length > 0 <;>
      simp_all [scopeCallLog, List.length_pos]
  · rw [generateSetNgModuleScopeCallInstr_log]
    by_cases hd : meta.declarations.length > 0 <;>
      by_cases hi : meta.imports.length > 0 <;>
      by_cases he : meta.exports.length > 0 <;>
      simp_all [scopeCallLog, List.length_pos]

/-- C9 witness. -/
theorem refsToArray_call_sites_guarded_witness :
    mIn.declarations ∈ (compileNgModuleInstr mIn).2 ∧ mIn.declarations ≠ [] := by
  have hmem : mIn.declarations ∈ (compileNgModuleInstr mIn).2 := by
    rw [compileNgModuleInstr_log]
    simp [mIn, metaBase, scopeCallLog]
  exact ⟨hmem, (refsToArray_call_sites_guarded mIn).2.2.1 mIn.declarations hmem⟩

/-- C10: in `SideEffect` mode with a non-empty scope and a present id,
the statements are exactly the guarded scope-registration statement
followed by the unconditional id-registration statement; in general the
statement list is always the scope-registration statements followed by
the id-registration statements, never the other way around. -/
theorem statements_order (meta : R3NgModuleMetadata) :
    (∀ idv, meta.selectorScopeMode = R3SelectorScopeMode.SideEffect →
      ¬(meta.declarations = [] ∧ meta.imports = [] ∧ meta.exports = []) →
      meta.id = some idv →
      (compileNgModule meta).statements =
        [scopeRegistrationStmt meta.adjacentType (scopeEntries meta),
         idRegistrationStmt meta.adjacentType idv])
    ∧ (compileNgModule meta).statements =
        (compileNgModule meta).statements.filter isScopeRegistrationStmt
        ++ (compileNgModule meta).statements.filter isIdRegistrationStmt := by
  constructor
  · intro idv h hne hid
    have hsc : ¬scopeEntries meta = [] := fun hnil =>
      hne ((scopeEntries_eq_nil_iff meta).mp hnil)
    have hscb : (scopeEntries meta).isEmpty = false := by
      rw [Bool.eq_false_iff, Ne, List.isEmpty_iff]; exact hsc
    rw [compileNgModule_statements]
    unfold mainStatements
    rw [generateSetNgModuleScopeCall_eq]
    simp [h, hscb, hid]
  · rw [compileNgModule_statements]
    unfold mainStatements
    rw [generateSetNgModuleScopeCall_eq]
    by_cases hm : meta.selectorScopeMode = R3SelectorScopeMode.SideEffect <;>
      by_cases hsc : (scopeEntries meta).isEmpty <;>
      cases hid : meta.id <;>
      simp [hm, hsc, hid, isScopeRegistrationStmt_scope, isScopeRegistrationStmt_id,
        isIdRegistrationStmt_id, isIdRegistrationStmt_scope]

/-- C10 witness. -/
theorem statements_order_witness :
    m10.selectorScopeMode = R3SelectorScopeMode.SideEffect
    ∧ m10.id = some (Expr.atom 9)
    ∧ (compileNgModule m10).statements =
        [scopeRegistrationStmt m10.adjacentType (scopeEntries m10),
         idRegistrationStmt m10.adjacentType (Expr.atom 9)] := by
  refine ⟨rfl, rfl, ?_⟩
  exact (statements_order m10).1 (Expr.atom 9) rfl (by simp [m10, metaBase]) rfl
